import Mathlib

/-!
Verification of the streaming chat client of the CISC3003 Team09 web chat
application, against its natural-language specification.

The repository's client code is JavaScript. The parts relevant to the
streaming chat bridge are embedded shallowly below:

* a model of parsed JSON values (`JsValue`) with JavaScript field access,
  truthiness, serialization and string coercion, mirroring what
  `JSON.parse`, property access, `if (x)`, `JSON.stringify` and template
  literals do in the source;
* the WebSocket message handlers of the three client variants
  (`frontend/public/js/chat.js` = part_009, its earlier revision part_014,
  and `alt-frontend/public/js/lib/chat.js`), each as a pure function from
  a received frame to the list of callback/socket actions it performs;
* the inline message listeners of `alt-frontend/.../chat-ui.js` and
  `frontend/app.js`, as an accumulator step function;
* the `POST /chat` request bodies built by the three `sendMessage`
  implementations;
* the message-form submit flows (part_011 and chat-ui.js);
* the socket-replacement guards of the send-message flows;
* a model of the backend Session Broker, written from the spec because the
  backend implementation is not part of the source tree.
-/

namespace ChatSpec

/-- A JavaScript value as produced by `JSON.parse`, extended with `undef`
(the result of accessing an absent property). Numbers are modelled as
integers: every numeric literal in the relevant code paths is integral. -/
inductive JsValue where
  | undef : JsValue
  | null : JsValue
  | jsBool : Bool → JsValue
  | num : Int → JsValue
  | str : String → JsValue
  | arr : List JsValue → JsValue
  | obj : List (String × JsValue) → JsValue

/-- JavaScript property access `v[key]`: the last binding of `key` wins
(as with duplicate keys in `JSON.parse`), and access on a non-object or an
absent key yields `undefined`. -/
def JsValue.getField : JsValue → String → JsValue
  | .obj fields, key =>
      fields.foldl (fun acc kv => if kv.1 == key then kv.2 else acc) JsValue.undef
  | _, _ => JsValue.undef

/-- JavaScript truthiness, as tested by `if (x)`: `undefined`, `null`,
`false`, `0` and the empty string are falsy; objects and arrays are truthy. -/
def JsValue.truthy : JsValue → Bool
  | .undef => false
  | .null => false
  | .jsBool b => b
  | .num n => n != 0
  | .str s => s != ""
  | .arr _ => true
  | .obj _ => true

/-- Strict equality `v === s` against a string literal. -/
def JsValue.isStrEq : JsValue → String → Bool
  | .str t, s => t == s
  | _, _ => false

/-- One character of a JSON string serialization. Quote and backslash are
escaped; control-character escapes are elided (no input in the relevant
code paths contains control characters). -/
def jsQuoteChar (c : Char) : String :=
  if c = '\"' then "\\\"" else if c = '\\' then "\\\\" else String.singleton c

/-- The JSON serialization of a string, as `JSON.stringify` produces it. -/
def jsQuote (s : String) : String :=
  "\"" ++ String.join (s.data.map jsQuoteChar) ++ "\""

mutual

/-- The result of `JSON.stringify(v)` for a parsed JSON value. -/
def JsValue.stringify : JsValue → String
  | .undef => "undefined"
  | .null => "null"
  | .jsBool b => cond b "true" "false"
  | .num n => toString n
  | .str s => jsQuote s
  | .arr xs => "[" ++ stringifyElems xs ++ "]"
  | .obj fs => "\x7b" ++ stringifyFields fs ++ "\x7d"

/-- Comma-separated serialization of array elements. -/
def stringifyElems : List JsValue → String
  | [] => ""
  | [v] => v.stringify
  | v :: rest => v.stringify ++ "," ++ stringifyElems rest

/-- Comma-separated serialization of object fields, in insertion order. -/
def stringifyFields : List (String × JsValue) → String
  | [] => ""
  | [kv] => jsQuote kv.1 ++ ":" ++ kv.2.stringify
  | kv :: rest => jsQuote kv.1 ++ ":" ++ kv.2.stringify ++ "," ++ stringifyFields rest

end

mutual

/-- JavaScript string coercion `String(v)` / template-literal interpolation. -/
def JsValue.jsToString : JsValue → String
  | .undef => "undefined"
  | .null => "null"
  | .jsBool b => cond b "true" "false"
  | .num n => toString n
  | .str s => s
  | .arr xs => jsToStringElems xs
  | .obj _ => "[object Object]"

/-- Array-to-string coercion: elements coerced and joined with commas. -/
def jsToStringElems : List JsValue → String
  | [] => ""
  | [v] => v.jsToString
  | v :: rest => v.jsToString ++ "," ++ jsToStringElems rest

end

/-- JavaScript `String.prototype.trim()`: strip leading and trailing
whitespace. Implemented over the character list so that it evaluates by
kernel reduction. -/
def jsTrim (s : String) : String :=
  String.mk (((s.data.dropWhile Char.isWhitespace).reverse.dropWhile Char.isWhitespace).reverse)

/-- A WebSocket frame as seen by an `onmessage` handler after the
`isValidJSON` / `JSON.parse` boundary: either raw text that is not valid
JSON, or the parsed JSON value. -/
inductive Frame where
  | text : String → Frame
  | json : JsValue → Frame

/-- An observable action of a `connectToStream` message handler: invoking
the `onContent` callback, invoking the `onError` callback, closing the
socket, or sending a frame on the socket (no handler in the source ever
does the last; the constructor exists so that absence is a statement about
the model, not about the action vocabulary). -/
inductive ClientAction where
  | onContent : JsValue → ClientAction
  | onError : JsValue → ClientAction
  | closeWs : ClientAction
  | sendWs : JsValue → ClientAction

/-- The JSON-dispatch of the `onmessage` handler of `connectToStream` in
part_009 (`frontend/public/js/chat.js`, lines 74-125): `error` first, then
`content` (with an optional `type` switch wrapping the content in markup),
then the `chat_ended` event, then a bare JSON string, then `message`, then
a bare number (ignored), else the unexpected-format error. A `null` frame,
which in the source raises a `TypeError` that the surrounding `catch` turns
into a parse-failure `onError`, does not occur in any claim and falls to
the unexpected-format branch here. -/
def handleJson_p9 (data : JsValue) : List ClientAction :=
  if (data.getField "error").truthy then
    [ClientAction.onError (data.getField "error")]
  else if (data.getField "content").truthy then
    if (data.getField "type").truthy then
      if (data.getField "type").isStrEq "text" then
        [ClientAction.onContent (JsValue.str ("<p>" ++ (data.getField "content").jsToString ++ "</p>"))]
      else if (data.getField "type").isStrEq "code" then
        [ClientAction.onContent (JsValue.str ("<pre><code>" ++ (data.getField "content").jsToString ++ "</code></pre>"))]
      else if (data.getField "type").isStrEq "formula" then
        [ClientAction.onContent (JsValue.str ("<span class=\"formula\">" ++ (data.getField "content").jsToString ++ "</span>"))]
      else
        [ClientAction.onContent (data.getField "content")]
    else
      [ClientAction.onContent (data.getField "content")]
  else if (data.getField "event").isStrEq "chat_ended" then
    [ClientAction.closeWs]
  else
    match data with
    | .str s => [ClientAction.onContent (JsValue.str s)]
    | _ =>
      if (data.getField "message").truthy then
        [ClientAction.onContent (data.getField "message")]
      else
        match data with
        | .num _ => []
        | _ => [ClientAction.onError (JsValue.str ("Unexpected JSON message format: " ++ data.stringify))]

/-- The full `onmessage` handler of `connectToStream` in part_009
(lines 74-132): non-JSON frames that trim to `"."` or `""` are ignored,
other non-JSON frames are forwarded raw to `onContent`. -/
def connectToStream_p9 : Frame → List ClientAction
  | .json data => handleJson_p9 data
  | .text raw =>
      if jsTrim raw == "." || jsTrim raw == "" then []
      else [ClientAction.onContent (JsValue.str raw)]

/-- The JSON-dispatch of the `onmessage` handler of `connectToStream` in
part_014 (lines 71-88): as in part_009 but without the `type` switch in
the content branch. -/
def handleJson_p14 (data : JsValue) : List ClientAction :=
  if (data.getField "error").truthy then
    [ClientAction.onError (data.getField "error")]
  else if (data.getField "content").truthy then
    [ClientAction.onContent (data.getField "content")]
  else if (data.getField "event").isStrEq "chat_ended" then
    [ClientAction.closeWs]
  else
    match data with
    | .str s => [ClientAction.onContent (JsValue.str s)]
    | _ =>
      if (data.getField "message").truthy then
        [ClientAction.onContent (data.getField "message")]
      else
        match data with
        | .num _ => []
        | _ => [ClientAction.onError (JsValue.str ("Unexpected JSON message format: " ++ data.stringify))]

/-- The full `onmessage` handler of `connectToStream` in part_014
(lines 62-100). -/
def connectToStream_p14 : Frame → List ClientAction
  | .json data => handleJson_p14 data
  | .text raw =>
      if jsTrim raw == "." || jsTrim raw == "" then []
      else [ClientAction.onContent (JsValue.str raw)]

/-- The `onmessage` handler of `connectToStream` in
`alt-frontend/public/js/lib/chat.js` (lines 151-164): dispatch on a
`type` discriminator only; a non-JSON frame makes `JSON.parse` throw out
of the handler, so no callback runs. -/
def connectToStream_alt : Frame → List ClientAction
  | .json data =>
      if (data.getField "type").isStrEq "content" then
        [ClientAction.onContent (data.getField "content")]
      else if (data.getField "type").isStrEq "error" then
        [ClientAction.onError (data.getField "error")]
      else []
  | .text _ => []

/-- An observable action of the inline WebSocket message listeners of
`alt-frontend/public/js/pages/chat-ui.js` (`handleSendMessage`, lines
196-223) and `frontend/app.js` (`sendMessage`, lines 183-210): setting the
assistant bubble's text, closing the socket, or sending on the socket
(the last never occurs in the source). -/
inductive PanelAct where
  | setText : String → PanelAct
  | closeWs : PanelAct
  | sendWs : String → PanelAct

/-- One step of the inline message listener shared (verbatim logic) by
chat-ui.js `handleSendMessage` and frontend/app.js `sendMessage`: given the
current accumulator `fullResponse` and a received frame, return the new
accumulator and the DOM/socket actions. An `error` frame replaces the
bubble text and leaves the accumulator unchanged; a `chat_ended` event does
nothing; any other JSON frame appends its `JSON.stringify` serialization;
a non-JSON frame (where `JSON.parse` throws) appends its raw text. -/
def chatUiOnMessage (full : String) (f : Frame) : String × List PanelAct :=
  match f with
  | .json v =>
      if (v.getField "error").truthy then
        (full, [PanelAct.setText ("Error: " ++ (v.getField "error").jsToString)])
      else if (v.getField "event").isStrEq "chat_ended" then
        (full, [])
      else
        (full ++ v.stringify, [PanelAct.setText (full ++ v.stringify)])
  | .text raw => (full ++ raw, [PanelAct.setText (full ++ raw)])

/-- The accumulator after the chat-ui.js / app.js inline listener has
processed a finite sequence of frames, starting from the empty string. -/
def chatUiAccum (frames : List Frame) : String :=
  frames.foldl (fun full f => (chatUiOnMessage full f).1) ""

/-- What one frame contributes to the chat-ui.js / app.js accumulator:
nothing for `error` and `chat_ended` frames, the `JSON.stringify`
serialization for every other JSON frame, and the raw text for non-JSON
frames. -/
def chatUiContribution : Frame → String
  | .json v =>
      if (v.getField "error").truthy then ""
      else if (v.getField "event").isStrEq "chat_ended" then ""
      else v.stringify
  | .text raw => raw

/-- The `POST /chat` body built by `sendMessage` in part_009
(`frontend/public/js/chat.js`, lines 28-33) and identically in part_014
(lines 22-27), as an ordered field list. -/
def chatBody_p9 (conversationId : Int) (content : String) : List (String × JsValue) :=
  [("conversation_id", JsValue.num conversationId),
   ("role", JsValue.str "user"),
   ("content", JsValue.str content),
   ("model", JsValue.str "gpt-4.1-nano")]

/-- The `POST /chat` body built by `sendMessage` in
`alt-frontend/public/js/lib/chat.js` (lines 135-138). -/
def chatBody_alt (conversationId : Int) (content : String) : List (String × JsValue) :=
  [("conversation_id", JsValue.num conversationId),
   ("content", JsValue.str content)]

/-- The `POST /chat` body built by `sendMessage` in `frontend/app.js`
(lines 155-159). -/
def chatBody_app (conversationId : Int) (content : String) : List (String × JsValue) :=
  [("conversation_id", JsValue.num conversationId),
   ("role", JsValue.str "user"),
   ("content", JsValue.str content)]

/-- Field lookup in a request body, with JavaScript object semantics. -/
def bodyField (body : List (String × JsValue)) (key : String) : JsValue :=
  (JsValue.obj body).getField key

/-- An observable action of a message-form submit flow: displaying a user
or assistant message, displaying an error, clearing the input, redirecting,
issuing the `POST /chat` request with its body, closing the previously
active socket, opening the streaming socket, or sending a frame on the
socket (the last never occurs in the source). -/
inductive UiAction where
  | displayUser : String → UiAction
  | displayAssistant : String → UiAction
  | displayError : String → UiAction
  | clearInput : UiAction
  | redirect : String → UiAction
  | httpPost : String → List (String × JsValue) → UiAction
  | closeOld : UiAction
  | wsOpen : UiAction
  | wsSend : String → UiAction

/-- The message-form submit handler of part_011 (lines 497-551), which uses
`sendMessage`/`connectToStream` imported from part_009's chat module.
Inputs that stand for ambient state: `loggedIn` is `getCurrentUser()`
truthiness; `convEnsured` is `currentConversationId` after the possible
`getOrCreateConversation()` call; `hadSocket` is whether `activeSocket` is
set when the response arrives; `wsUrlOk` is whether `sendMessage` returned
an object carrying a `ws_url` (a thrown `sendMessage` is modelled like a
missing `ws_url`: in both cases the POST has been issued and an error is
displayed). -/
def part11Submit (raw : String) (loggedIn : Bool) (convEnsured : Option Int)
    (hadSocket : Bool) (wsUrlOk : Bool) : List UiAction :=
  let content := jsTrim raw
  if content == "" then []
  else if !loggedIn then
    [UiAction.displayError "You need to be logged in to send messages.",
     UiAction.redirect "login.html"]
  else
    UiAction.displayUser content :: UiAction.clearInput ::
      (match convEnsured with
       | none => [UiAction.displayError "Error: No active conversation"]
       | some cid =>
           UiAction.httpPost "chat" (chatBody_p9 cid content) ::
             (if !wsUrlOk then [UiAction.displayError "Error: No WebSocket URL received"]
              else
                (if hadSocket then [UiAction.closeOld] else []) ++
                  [UiAction.displayAssistant "", UiAction.wsOpen]))

/-- The `handleSendMessage` flow of `alt-frontend/public/js/pages/chat-ui.js`
(lines 168-242): no-op without a current conversation or with an input that
is empty after trimming; otherwise close any previous socket, display the
user message, clear the input, issue the POST (body from the alt-frontend
`sendMessage`), and on a usable response open the streaming socket. -/
def chatUiSendFlow (raw : String) (conv : Option Int) (hadSocket : Bool)
    (respOk : Bool) : List UiAction :=
  match conv with
  | none => []
  | some cid =>
      let content := jsTrim raw
      if content == "" then []
      else
        (if hadSocket then [UiAction.closeOld] else []) ++
          (UiAction.displayUser content :: UiAction.clearInput ::
            UiAction.httpPost "chat" (chatBody_alt cid content) ::
              (if respOk then [UiAction.displayAssistant "", UiAction.wsOpen] else []))

/-- The transport state of a client WebSocket object
(`WebSocket.readyState`). -/
inductive WsState where
  | connecting : WsState
  | openS : WsState
  | closing : WsState
  | closed : WsState
deriving DecidableEq

/-- The effect of calling `ws.close()`: a connecting or open socket moves
to closing; close on a closing or closed socket is a no-op. -/
def wsCloseCall : WsState → WsState
  | .connecting => .closing
  | .openS => .closing
  | s => s

/-- States of all live-or-dead socket objects after one send-message flow
of `frontend/app.js` (lines 170-174): the previous socket is closed only
when its `readyState` is exactly `OPEN` (`activeSocket.readyState ===
WebSocket.OPEN`), the variable is never cleared, and then a new socket is
created in the connecting state. -/
def appSocketsAfterSend (prev : Option WsState) : List WsState :=
  match prev with
  | none => [WsState.connecting]
  | some s => [if s = WsState.openS then wsCloseCall s else s, WsState.connecting]

/-- States of all socket objects after one send-message flow of
chat-ui.js (lines 174-178) or part_011 (lines 525-528): any previous
socket is closed unconditionally (and the variable cleared) before the new
socket is created. -/
def chatUiSocketsAfterSend (prev : Option WsState) : List WsState :=
  match prev with
  | none => [WsState.connecting]
  | some s => [wsCloseCall s, WsState.connecting]

/-- Whether a socket can still deliver frames to its listeners. -/
def wsLive : WsState → Bool
  | .connecting => true
  | .openS => true
  | _ => false

/-- Number of live sockets in a collection. -/
def liveCount (l : List WsState) : Nat := (l.filter wsLive).length

/-- State of a stream session, from the spec's state machine. -/
inductive SessionState where
  | pending : SessionState
  | consumed : SessionState
  | completed : SessionState
  | failed : SessionState
  | expired : SessionState
deriving DecidableEq

/-- Modelled from the spec: the `StreamSession` record of the Session
Broker. The broker is backend code, and the backend implementation is not
under src/ (src/backend holds only packaging files), so the record follows
section 3 of the spec. The opaque random id is modelled as a natural
number. -/
structure StreamSession where
  id : Nat
  conversation_id : Nat
  owner_user_id : Nat
  prompt_message_id : Nat
  model : String
  state : SessionState
  created_at : Nat
  expires_at : Nat
deriving DecidableEq

/-- Result vocabulary of the broker's `Consume`. -/
inductive ConsumeResult where
  | success : StreamSession → ConsumeResult
  | notFound : ConsumeResult
  | expiredR : ConsumeResult
deriving DecidableEq

/-- Lookup of a session by id in the broker's table. -/
def findSession (sessions : List StreamSession) (sid : Nat) : Option StreamSession :=
  sessions.find? (fun s => s.id == sid)

/-- Overwrite the state of the session with the given id. -/
def markState (sessions : List StreamSession) (sid : Nat) (st : SessionState) :
    List StreamSession :=
  sessions.map (fun s => if s.id == sid then { s with state := st } else s)

/-- Modelled from the spec: `Consume(session_id)` of the Session Broker
(spec section 4.2), one atomic step: check existence, check
`now < expires_at`, and only if both hold flip `pending → consumed` and
return a copy. A session already consumed (or terminal) yields `NotFound`
— the spec removes consumed sessions from the pending set, so a losing
concurrent caller gets `NotFound`; a pending session past its deadline
yields `Expired`. -/
def consume (now : Nat) (sessions : List StreamSession) (sid : Nat) :
    ConsumeResult × List StreamSession :=
  match findSession sessions sid with
  | none => (ConsumeResult.notFound, sessions)
  | some s =>
      match s.state with
      | SessionState.pending =>
          if now < s.expires_at then
            (ConsumeResult.success { s with state := SessionState.consumed },
             markState sessions sid SessionState.consumed)
          else
            (ConsumeResult.expiredR, markState sessions sid SessionState.expired)
      | SessionState.expired => (ConsumeResult.expiredR, sessions)
      | _ => (ConsumeResult.notFound, sessions)

/-- Results of `n` `Consume` calls on the same id run one after the other.
Because `Consume` is a single atomic step (spec section 5: a mutex-guarded
compare-and-swap), a concurrent execution of `n` callers is equivalent to
some sequential order of the `n` atomic operations, and all orders are the
same call sequence, so this models every interleaving. -/
def consumeRun (now : Nat) (sessions : List StreamSession) (sid : Nat) :
    Nat → List ConsumeResult
  | 0 => []
  | Nat.succ n =>
      (consume now sessions sid).1 ::
        consumeRun now (consume now sessions sid).2 sid n

/-- Whether a `Consume` result is a success. -/
def isSuccessR : ConsumeResult → Bool
  | .success _ => true
  | _ => false

/-- Whether a `Consume` result is `NotFound`. -/
def isNotFoundR : ConsumeResult → Bool
  | .notFound => true
  | _ => false

/-- Concatenation of a list of strings in order. -/
def concatAll : List String → String
  | [] => ""
  | s :: rest => s ++ concatAll rest

/-- Whether a `connectToStream` handler action is not a socket send. -/
def caNotSend : ClientAction → Bool
  | .sendWs _ => false
  | _ => true

/-- Whether an inline-listener action is not a socket send. -/
def paNotSend : PanelAct → Bool
  | .sendWs _ => false
  | _ => true

/-- Whether a submit-flow action is not a socket send. -/
def uaNotSend : UiAction → Bool
  | .wsSend _ => false
  | _ => true

section Lemmas

/-- Marking a session's state rewrites exactly the found session. -/
theorem findSession_markState (sessions : List StreamSession) (sid : Nat)
    (st : SessionState) :
    findSession (markState sessions sid st) sid =
      (findSession sessions sid).map (fun s => { s with state := st }) := by
  induction sessions with
  | nil => simp [findSession, markState]
  | cons h t ih =>
      by_cases hh : h.id = sid
      · simp [findSession, markState, List.find?, hh]
      · have hb : (h.id == sid) = false := by simpa using hh
        simpa [findSession, markState, List.find?, hb] using ih

/-- A consumed session yields `NotFound` and leaves the table unchanged. -/
theorem consume_of_consumed (now : Nat) (sessions : List StreamSession)
    (sid : Nat) (s : StreamSession) (hf : findSession sessions sid = some s)
    (hs : s.state = SessionState.consumed) :
    consume now sessions sid = (ConsumeResult.notFound, sessions) := by
  simp [consume, hf, hs]

/-- Every later call on a consumed session yields `NotFound`. -/
theorem consumeRun_of_consumed (now : Nat) (sessions : List StreamSession)
    (sid : Nat) (s : StreamSession) (hf : findSession sessions sid = some s)
    (hs : s.state = SessionState.consumed) (n : Nat) :
    consumeRun now sessions sid n = List.replicate n ConsumeResult.notFound := by
  induction n with
  | zero => rfl
  | succ n ih =>
      simp [consumeRun, consume_of_consumed now sessions sid s hf hs, ih,
        List.replicate]

/-- Counting over a replicated list. -/
theorem countP_replicate {α : Type} (p : α → Bool) (a : α) (n : Nat) :
    List.countP p (List.replicate n a) = if p a then n else 0 := by
  induction n with
  | zero => simp [List.replicate]
  | succ n ih =>
      simp [List.replicate, List.countP_cons, ih]
      split <;> simp [Nat.add_comm]

end Lemmas

/-- C1: with the spec-modelled atomic `Consume`, on a table whose session
`sid` is pending and unexpired, any sequence of `n ≥ 1` `Consume(sid)`
calls — and hence, `Consume` being one atomic step, any concurrent
execution of `n` callers — produces exactly one success and `n - 1`
`NotFound` results. -/
theorem claim_C1_atMostOnceConsume (now : Nat) (sessions : List StreamSession)
    (sid : Nat) (s : StreamSession) (n : Nat)
    (hf : findSession sessions sid = some s)
    (hp : s.state = SessionState.pending)
    (he : now < s.expires_at) (hn : 1 ≤ n) :
    List.countP isSuccessR (consumeRun now sessions sid n) = 1 ∧
      List.countP isNotFoundR (consumeRun now sessions sid n) = n - 1 := by
  obtain ⟨m, rfl⟩ : ∃ m, n = m + 1 := ⟨n - 1, (Nat.succ_pred_eq_of_pos hn).symm⟩
  have hstep : consume now sessions sid =
      (ConsumeResult.success { s with state := SessionState.consumed },
       markState sessions sid SessionState.consumed) := by
    simp [consume, hf, hp, he]
  have hf2 : findSession (markState sessions sid SessionState.consumed) sid =
      some { s with state := SessionState.consumed } := by
    rw [findSession_markState, hf]; rfl
  have htail : consumeRun now (markState sessions sid SessionState.consumed) sid m =
      List.replicate m ConsumeResult.notFound :=
    consumeRun_of_consumed now _ sid _ hf2 rfl m
  simp [consumeRun, hstep, htail, List.countP_cons, countP_replicate,
    isSuccessR, isNotFoundR]

/-- C1 witness: a concrete pending, unexpired session consumed by three
callers: one success, two `NotFound`. -/
theorem claim_C1_witness :
    List.countP isSuccessR
        (consumeRun 10 [⟨1, 1, 5, 42, "m", SessionState.pending, 0, 100⟩] 1 3) = 1 ∧
      List.countP isNotFoundR
        (consumeRun 10 [⟨1, 1, 5, 42, "m", SessionState.pending, 0, 100⟩] 1 3) = 3 - 1 :=
  claim_C1_atMostOnceConsume 10 [⟨1, 1, 5, 42, "m", SessionState.pending, 0, 100⟩]
    1 ⟨1, 1, 5, 42, "m", SessionState.pending, 0, 100⟩ 3 rfl rfl (by decide) (by decide)

/-- One listener step appends exactly the frame's contribution to the
accumulator. -/
theorem chatUiOnMessage_fst (full : String) (f : Frame) :
    (chatUiOnMessage full f).1 = full ++ chatUiContribution f := by
  cases f with
  | json v =>
      by_cases he : (v.getField "error").truthy
      · simp [chatUiOnMessage, chatUiContribution, he]
      · by_cases hev : (v.getField "event").isStrEq "chat_ended"
        · simp [chatUiOnMessage, chatUiContribution, he, hev]
        · simp [chatUiOnMessage, chatUiContribution, he, hev]
  | text raw => simp [chatUiOnMessage, chatUiContribution]

/-- Folding the listener over a frame list appends the concatenated
contributions. -/
theorem chatUi_foldl_contribution (frames : List Frame) (full : String) :
    frames.foldl (fun acc f => (chatUiOnMessage acc f).1) full =
      full ++ concatAll (frames.map chatUiContribution) := by
  induction frames generalizing full with
  | nil => simp [concatAll]
  | cons f t ih =>
      simp only [List.foldl_cons, List.map_cons, concatAll]
      rw [chatUiOnMessage_fst, ih, String.append_assoc]

/-- C2 counterexample: on the spec's own example stream — the JSON content
frames carrying "Hi" and " there" followed by the terminal event — the
accumulator of the chat-ui.js / app.js message listener (the handlers the
claim cites) is the concatenation of the frames' JSON serializations, not
of their content payloads: it ends up as the literal text
`\x7b"content":"Hi"\x7d\x7b"content":" there"\x7d`, not "Hi there". -/
theorem claim_C2_counterexample :
    chatUiAccum
        [Frame.json (JsValue.obj [("content", JsValue.str "Hi")]),
         Frame.json (JsValue.obj [("content", JsValue.str " there")]),
         Frame.json (JsValue.obj [("event", JsValue.str "chat_ended")])] =
      "\x7b\"content\":\"Hi\"\x7d\x7b\"content\":\" there\"\x7d" ∧
      chatUiAccum
        [Frame.json (JsValue.obj [("content", JsValue.str "Hi")]),
         Frame.json (JsValue.obj [("content", JsValue.str " there")]),
         Frame.json (JsValue.obj [("event", JsValue.str "chat_ended")])] ≠
      "Hi there" := by
  constructor
  · rfl
  · decide

/-- C2 as amended: the text accumulated by the chat-ui.js / app.js message
listener over any finite ordered frame sequence is the concatenation, in
arrival order and without reordering or duplication, of each frame's
contribution — where a JSON frame that is neither an error frame nor the
`chat_ended` event contributes its `JSON.stringify` serialization (so a
`{"content": s}` frame contributes the serialized frame, not the payload
`s`), a non-JSON frame contributes its raw text, and error / terminal
frames contribute nothing. -/
theorem claim_C2_amended (frames : List Frame) :
    chatUiAccum frames = concatAll (frames.map chatUiContribution) := by
  have h := chatUi_foldl_contribution frames ""
  simpa [chatUiAccum] using h

/-- C3 counterexample: none of the three `sendMessage` implementations
sends a body whose fields are exactly `conversation_id`, `content`,
`model`: part_009/part_014 add a fourth field `role`, the alt-frontend
variant omits `model`, and frontend/app.js sends `role` but no `model`. -/
theorem claim_C3_counterexample :
    (chatBody_p9 1 "hi").map Prod.fst ≠ ["conversation_id", "content", "model"] ∧
      (chatBody_alt 1 "hi").map Prod.fst ≠ ["conversation_id", "content", "model"] ∧
      (chatBody_app 1 "hi").map Prod.fst ≠ ["conversation_id", "content", "model"] := by
  refine ⟨by decide, by decide, by decide⟩

/-- C3 as amended: for every conversation id and content, the `POST /chat`
body of part_009/part_014's `sendMessage` consists of exactly the four
fields `conversation_id`, `role` (the string "user"), `content` (the
content argument) and `model` (the string "gpt-4.1-nano"), in that order;
the alt-frontend `sendMessage` sends exactly `conversation_id` and
`content`; frontend/app.js sends exactly `conversation_id`, `role` and
`content` with no `model` field. -/
theorem claim_C3_amended (cid : Int) (content : String) :
    (chatBody_p9 cid content).map Prod.fst = ["conversation_id", "role", "content", "model"] ∧
      bodyField (chatBody_p9 cid content) "content" = JsValue.str content ∧
      bodyField (chatBody_p9 cid content) "role" = JsValue.str "user" ∧
      bodyField (chatBody_p9 cid content) "model" = JsValue.str "gpt-4.1-nano" ∧
      (chatBody_alt cid content).map Prod.fst = ["conversation_id", "content"] ∧
      bodyField (chatBody_alt cid content) "content" = JsValue.str content ∧
      (chatBody_app cid content).map Prod.fst = ["conversation_id", "role", "content"] ∧
      bodyField (chatBody_app cid content) "content" = JsValue.str content :=
  ⟨rfl, rfl, rfl, rfl, rfl, rfl, rfl, rfl⟩

/-- C4 counterexample: for the frame with an empty content payload the
part_009 handler does not invoke `onContent` (with the empty string or
anything else); the frame falls through to the unexpected-format error
branch, so the claim's universal "for every string s" fails at s = "". -/
theorem claim_C4_counterexample :
    ClientAction.onContent (JsValue.str "") ∉
      connectToStream_p9 (Frame.json (JsValue.obj [("content", JsValue.str "")])) := by
  intro h
  have e : connectToStream_p9 (Frame.json (JsValue.obj [("content", JsValue.str "")])) =
      [ClientAction.onError
        (JsValue.str "Unexpected JSON message format: \x7b\"content\":\"\"\x7d")] := rfl
  rw [e] at h
  simp at h

/-- C4 as amended: for every frame that is exactly the JSON object
`\x7b"content": s\x7d` with s a non-empty string, the part_009 and
part_014 `connectToStream` handlers invoke `onContent` with exactly s and
nothing else (in particular no `onError`); the alt-frontend handler
dispatches on a `type` discriminator instead, invoking `onContent(s)` for
`\x7b"type":"content","content": s\x7d` and doing nothing for a bare
`\x7b"content": s\x7d` frame. The empty payload is excluded: it is falsy
in the handlers' truthiness test and falls to the unexpected-format error
branch (see the counterexample). -/
theorem claim_C4_amended (s : String) (h : s ≠ "") :
    connectToStream_p9 (Frame.json (JsValue.obj [("content", JsValue.str s)])) =
        [ClientAction.onContent (JsValue.str s)] ∧
      connectToStream_p14 (Frame.json (JsValue.obj [("content", JsValue.str s)])) =
        [ClientAction.onContent (JsValue.str s)] ∧
      connectToStream_alt
          (Frame.json (JsValue.obj [("type", JsValue.str "content"), ("content", JsValue.str s)])) =
        [ClientAction.onContent (JsValue.str s)] ∧
      connectToStream_alt (Frame.json (JsValue.obj [("content", JsValue.str s)])) =
        ([] : List ClientAction) := by
  have hb : (s != "") = true := by simpa using h
  refine ⟨?_, ?_, rfl, rfl⟩
  · have e : connectToStream_p9 (Frame.json (JsValue.obj [("content", JsValue.str s)])) =
        if s != "" then [ClientAction.onContent (JsValue.str s)]
        else [ClientAction.onError (JsValue.str ("Unexpected JSON message format: " ++
          (JsValue.obj [("content", JsValue.str s)]).stringify))] := rfl
    rw [e, if_pos hb]
  · have e : connectToStream_p14 (Frame.json (JsValue.obj [("content", JsValue.str s)])) =
        if s != "" then [ClientAction.onContent (JsValue.str s)]
        else [ClientAction.onError (JsValue.str ("Unexpected JSON message format: " ++
          (JsValue.obj [("content", JsValue.str s)]).stringify))] := rfl
    rw [e, if_pos hb]

/-- C4 witness: the non-empty payload "Hi" is forwarded verbatim. -/
theorem claim_C4_witness :
    connectToStream_p9 (Frame.json (JsValue.obj [("content", JsValue.str "Hi")])) =
        [ClientAction.onContent (JsValue.str "Hi")] ∧
      connectToStream_p14 (Frame.json (JsValue.obj [("content", JsValue.str "Hi")])) =
        [ClientAction.onContent (JsValue.str "Hi")] ∧
      connectToStream_alt
          (Frame.json (JsValue.obj [("type", JsValue.str "content"), ("content", JsValue.str "Hi")])) =
        [ClientAction.onContent (JsValue.str "Hi")] ∧
      connectToStream_alt (Frame.json (JsValue.obj [("content", JsValue.str "Hi")])) =
        ([] : List ClientAction) :=
  claim_C4_amended "Hi" (by decide)

/-- C5 counterexample: the alt-frontend `connectToStream` handler (one of
the two handlers the claim cites) dispatches on a `type` discriminator
only, so on the spec's error frame `\x7b"error":"rate limited"\x7d` it
performs no action at all — in particular `onError` is not invoked with
"rate limited". -/
theorem claim_C5_counterexample :
    connectToStream_alt (Frame.json (JsValue.obj [("error", JsValue.str "rate limited")])) =
        ([] : List ClientAction) ∧
      ClientAction.onError (JsValue.str "rate limited") ∉
        connectToStream_alt (Frame.json (JsValue.obj [("error", JsValue.str "rate limited")])) := by
  refine ⟨rfl, ?_⟩
  intro h
  rw [show connectToStream_alt (Frame.json (JsValue.obj [("error", JsValue.str "rate limited")])) =
      ([] : List ClientAction) from rfl] at h
  exact List.not_mem_nil _ h

/-- C5 as amended: for every received JSON object frame whose `error`
field is a non-empty string s — regardless of any other fields present —
the part_009 and part_014 handlers invoke `onError` with exactly s and
nothing else (in particular no `onContent`); the alt-frontend handler
invokes `onError(s)` only for frames carrying the `type:"error"`
discriminator and ignores a bare `\x7b"error": s\x7d` frame (see the
counterexample). -/
theorem claim_C5_amended (fields : List (String × JsValue)) (s : String)
    (h : s ≠ "") (hf : (JsValue.obj fields).getField "error" = JsValue.str s) :
    connectToStream_p9 (Frame.json (JsValue.obj fields)) =
        [ClientAction.onError (JsValue.str s)] ∧
      connectToStream_p14 (Frame.json (JsValue.obj fields)) =
        [ClientAction.onError (JsValue.str s)] ∧
      connectToStream_alt
          (Frame.json (JsValue.obj [("type", JsValue.str "error"), ("error", JsValue.str s)])) =
        [ClientAction.onError (JsValue.str s)] := by
  have hb : (s != "") = true := by simpa using h
  have ht : ((JsValue.obj fields).getField "error").truthy = true := by
    rw [hf]; simpa [JsValue.truthy] using hb
  refine ⟨?_, ?_, rfl⟩
  · show handleJson_p9 (JsValue.obj fields) = _
    unfold handleJson_p9
    rw [if_pos ht, hf]
  · show handleJson_p14 (JsValue.obj fields) = _
    unfold handleJson_p14
    rw [if_pos ht, hf]

/-- C5 witness: an error frame with payload "rate limited" and an extra
field is reported verbatim through `onError` by the part_009/part_014
handlers, and through the alt-frontend handler when tagged. -/
theorem claim_C5_witness :
    connectToStream_p9
        (Frame.json (JsValue.obj [("error", JsValue.str "rate limited"), ("detail", JsValue.num 1)])) =
        [ClientAction.onError (JsValue.str "rate limited")] ∧
      connectToStream_p14
          (Frame.json (JsValue.obj [("error", JsValue.str "rate limited"), ("detail", JsValue.num 1)])) =
        [ClientAction.onError (JsValue.str "rate limited")] ∧
      connectToStream_alt
          (Frame.json (JsValue.obj [("type", JsValue.str "error"), ("error", JsValue.str "rate limited")])) =
        [ClientAction.onError (JsValue.str "rate limited")] :=
  claim_C5_amended [("error", JsValue.str "rate limited"), ("detail", JsValue.num 1)]
    "rate limited" (by decide) rfl

/-- C6 counterexample: the inline message listener of chat-ui.js (one of
the two handlers the claim cites) performs no action at all on the
terminal `\x7b"event":"chat_ended"\x7d` frame: it neither closes the
socket (closing is left to the server) nor touches the accumulator, so the
claim's "the client closes the streaming WebSocket" fails there. -/
theorem claim_C6_counterexample :
    chatUiOnMessage "" (Frame.json (JsValue.obj [("event", JsValue.str "chat_ended")])) =
      ("", ([] : List PanelAct)) := rfl

/-- C6 as amended: upon the terminal `\x7b"event":"chat_ended"\x7d` frame
the part_009 and part_014 `connectToStream` handlers close the socket and
invoke neither `onContent` nor `onError`; the inline chat-ui.js / app.js
listener invokes no callback and leaves the accumulated text unchanged,
but does not itself close the socket. In all cited handlers the terminal
frame appends no text. -/
theorem claim_C6_amended :
    connectToStream_p9 (Frame.json (JsValue.obj [("event", JsValue.str "chat_ended")])) =
        [ClientAction.closeWs] ∧
      connectToStream_p14 (Frame.json (JsValue.obj [("event", JsValue.str "chat_ended")])) =
        [ClientAction.closeWs] ∧
      ∀ full : String,
        chatUiOnMessage full (Frame.json (JsValue.obj [("event", JsValue.str "chat_ended")])) =
          (full, ([] : List PanelAct)) :=
  ⟨rfl, rfl, fun _ => rfl⟩

/-- C10: the empty content delta `\x7b"content":""\x7d` is never delivered
as content: in both the part_009 and part_014 handlers the empty string is
falsy, the frame falls through every recognized shape, and the handler
invokes `onError` with the unexpected-message-format description of the
frame — `onContent` is not invoked at all. -/
theorem claim_C10_emptyDeltaRejected :
    connectToStream_p9 (Frame.json (JsValue.obj [("content", JsValue.str "")])) =
        [ClientAction.onError
          (JsValue.str "Unexpected JSON message format: \x7b\"content\":\"\"\x7d")] ∧
      connectToStream_p14 (Frame.json (JsValue.obj [("content", JsValue.str "")])) =
        [ClientAction.onError
          (JsValue.str "Unexpected JSON message format: \x7b\"content\":\"\"\x7d")] :=
  ⟨rfl, rfl⟩

/-- C9 counterexample: in the frontend/app.js send-message flow the
previous socket is closed only when its `readyState` is exactly `OPEN`, so
when the previous socket is still connecting it stays live next to the
newly created one — two live sockets, refuting "at most one open streaming
WebSocket at any time". -/
theorem claim_C9_counterexample :
    liveCount (appSocketsAfterSend (some WsState.connecting)) = 2 := by decide

/-- C9 as amended: the chat-ui.js and part_011 send-message flows close
the previous socket unconditionally before connecting, leaving exactly one
live socket; the frontend/app.js flow closes the previous socket only when
it is `OPEN` (and never clears the variable), so it maintains a single
live socket only when the previous socket is not still connecting. -/
theorem claim_C9_amended (prevA prevB : Option WsState)
    (h : prevB ≠ some WsState.connecting) :
    liveCount (chatUiSocketsAfterSend prevA) = 1 ∧
      liveCount (appSocketsAfterSend prevB) = 1 := by
  constructor
  · cases prevA with
    | none => rfl
    | some s => cases s <;> rfl
  · cases prevB with
    | none => rfl
    | some s =>
        cases s with
        | connecting => exact absurd rfl h
        | openS => rfl
        | closing => rfl
        | closed => rfl

/-- C9 witness: with a previous open socket both flows end up with exactly
one live socket. -/
theorem claim_C9_witness :
    liveCount (chatUiSocketsAfterSend (some WsState.openS)) = 1 ∧
      liveCount (appSocketsAfterSend (some WsState.openS)) = 1 :=
  claim_C9_amended (some WsState.openS) (some WsState.openS) (by decide)

/-- The part_009 JSON dispatch never sends on the socket. -/
theorem handleJson_p9_noSend (v : JsValue) :
    (handleJson_p9 v).all caNotSend = true := by
  unfold handleJson_p9
  repeat' split
  all_goals rfl

/-- The part_014 JSON dispatch never sends on the socket. -/
theorem handleJson_p14_noSend (v : JsValue) :
    (handleJson_p14 v).all caNotSend = true := by
  unfold handleJson_p14
  repeat' split
  all_goals rfl

/-- C8: the streaming channel is used strictly server-to-client: for every
received frame, accumulator state and ambient state, none of the modelled
client handlers — the three `connectToStream` message handlers, the inline
chat-ui.js / app.js listener, and the two send-message submit flows —
performs a WebSocket send. -/
theorem claim_C8_serverToClientOnly (f : Frame) (full raw : String)
    (loggedIn hadSocket wsUrlOk hadB respOk : Bool)
    (convEnsured conv : Option Int) :
    (connectToStream_p9 f).all caNotSend = true ∧
      (connectToStream_p14 f).all caNotSend = true ∧
      (connectToStream_alt f).all caNotSend = true ∧
      ((chatUiOnMessage full f).2).all paNotSend = true ∧
      (part11Submit raw loggedIn convEnsured hadSocket wsUrlOk).all uaNotSend = true ∧
      (chatUiSendFlow raw conv hadB respOk).all uaNotSend = true := by
  refine ⟨?_, ?_, ?_, ?_, ?_, ?_⟩
  · cases f with
    | json v => exact handleJson_p9_noSend v
    | text raw2 =>
        simp only [connectToStream_p9]
        split
        · rfl
        · rfl
  · cases f with
    | json v => exact handleJson_p14_noSend v
    | text raw2 =>
        simp only [connectToStream_p14]
        split
        · rfl
        · rfl
  · cases f with
    | json v =>
        simp only [connectToStream_alt]
        repeat' split
        all_goals rfl
    | text raw2 => rfl
  · cases f with
    | json v =>
        simp only [chatUiOnMessage]
        repeat' split
        all_goals rfl
    | text raw2 => rfl
  · cases hb : (jsTrim raw == "") with
    | true => simp [part11Submit, hb]
    | false =>
        cases loggedIn <;> cases convEnsured <;> cases hadSocket <;> cases wsUrlOk <;>
          simp [part11Submit, hb, uaNotSend]
  · cases conv with
    | none => rfl
    | some cid =>
        cases hb : (jsTrim raw == "") with
        | true => simp [chatUiSendFlow, hb]
        | false =>
            cases hadB <;> cases respOk <;> simp [chatUiSendFlow, hb, uaNotSend]

/-- C7: in the part_011 and chat-ui.js message-form submit flows, a
`POST /chat` request is issued only for input that is non-empty after
trimming: a submission whose trimmed input is empty performs no action at
all (no request, nothing displayed), and every `POST /chat` body issued by
either flow carries exactly the trimmed input in its `content` field. The
first hypothesis instantiates the empty case at `rawE`; the last two
conjuncts cover every posted body for an arbitrary submission `raw`. -/
theorem claim_C7_trimGate (rawE raw : String)
    (lE hE wE hbE rE loggedIn hadSocket wsUrlOk hadC respC : Bool)
    (cE cvE convEnsured conv : Option Int)
    (path : String) (body : List (String × JsValue))
    (hE0 : jsTrim rawE = "") :
    part11Submit rawE lE cE hE wE = [] ∧
      chatUiSendFlow rawE cvE hbE rE = [] ∧
      (UiAction.httpPost path body ∈ part11Submit raw loggedIn convEnsured hadSocket wsUrlOk →
        bodyField body "content" = JsValue.str (jsTrim raw) ∧ jsTrim raw ≠ "") ∧
      (UiAction.httpPost path body ∈ chatUiSendFlow raw conv hadC respC →
        bodyField body "content" = JsValue.str (jsTrim raw) ∧ jsTrim raw ≠ "") := by
  have hEb : (jsTrim rawE == "") = true := by simpa using hE0
  refine ⟨?_, ?_, ?_, ?_⟩
  · simp [part11Submit, hEb]
  · cases cvE with
    | none => rfl
    | some cid => simp [chatUiSendFlow, hEb]
  · intro hmem
    by_cases hc : jsTrim raw = ""
    · have hb : (jsTrim raw == "") = true := by simpa using hc
      simp [part11Submit, hb] at hmem
    · have hb : (jsTrim raw == "") = false := by simpa using hc
      cases loggedIn with
      | false => simp [part11Submit, hb] at hmem
      | true =>
          cases convEnsured with
          | none => simp [part11Submit, hb] at hmem
          | some cid =>
              cases wsUrlOk with
              | false =>
                  simp [part11Submit, hb] at hmem
                  obtain ⟨-, hbody⟩ := hmem
                  subst hbody
                  exact ⟨rfl, hc⟩
              | true =>
                  cases hadSocket with
                  | false =>
                      simp [part11Submit, hb] at hmem
                      obtain ⟨-, hbody⟩ := hmem
                      subst hbody
                      exact ⟨rfl, hc⟩
                  | true =>
                      simp [part11Submit, hb] at hmem
                      obtain ⟨-, hbody⟩ := hmem
                      subst hbody
                      exact ⟨rfl, hc⟩
  · intro hmem
    cases conv with
    | none => simp [chatUiSendFlow] at hmem
    | some cid =>
        by_cases hc : jsTrim raw = ""
        · have hb : (jsTrim raw == "") = true := by simpa using hc
          simp [chatUiSendFlow, hb] at hmem
        · have hb : (jsTrim raw == "") = false := by simpa using hc
          cases hadC with
          | false =>
              cases respC <;>
                · simp [chatUiSendFlow, hb] at hmem
                  obtain ⟨-, hbody⟩ := hmem
                  subst hbody
                  exact ⟨rfl, hc⟩
          | true =>
              cases respC <;>
                · simp [chatUiSendFlow, hb] at hmem
                  obtain ⟨-, hbody⟩ := hmem
                  subst hbody
                  exact ⟨rfl, hc⟩

/-- C7 witness: a whitespace-only submission does nothing in either flow,
and a concrete posted body carries the trimmed content. -/
theorem claim_C7_witness :
    (part11Submit "   " true (some 1) false true = [] ∧
        chatUiSendFlow "   " (some 1) false true = []) ∧
      (bodyField (chatBody_p9 1 "hi") "content" = JsValue.str (jsTrim " hi ") ∧
        jsTrim " hi " ≠ "") := by
  have h := claim_C7_trimGate "   " " hi " true false true false true true false true
    true true (some 1) (some 1) (some 1) (some 1) "chat" (chatBody_p9 1 "hi") rfl
  refine ⟨⟨h.1, h.2.1⟩, h.2.2.1 ?_⟩
  rw [show part11Submit " hi " true (some 1) false true =
      [UiAction.displayUser "hi", UiAction.clearInput,
        UiAction.httpPost "chat" (chatBody_p9 1 "hi"),
        UiAction.displayAssistant "", UiAction.wsOpen] from rfl]
  exact List.Mem.tail _ (List.Mem.tail _ (List.Mem.head _))

end ChatSpec
